import Mathlib

/-!
Verification of the Shot-Deck-Scrapper repository against its
natural-language specification.

The development shallowly embeds the Python sources:
  * `src/rate_limiter.py`  — `RateLimiter` (adaptive delay) and `BrowserPool`;
  * `src/image_scraper.py` — `download_image` (tenacity retry, file cache);
  * `src/database.py`      — `save_image_record` branches (SQLite / PostgreSQL);
  * `src/main_scraper.py`  — `scrape_page` dedup filter and the
    `scrape_all_pages` orchestration loop.

Python floats are modelled as exact rationals; wall-clock sleeping is
modelled by counting the sleeps the code issues; async I/O events
(page contents, HTTP responses, exceptions raised by the outside world)
are inputs to the embedded transition functions.
-/

namespace ShotDeck

/-- State of `RateLimiter` (src/rate_limiter.py, `__init__`).
The `request_times` deque only drives the sliding-window sleep in
`wait_if_needed` and never feeds the adaptive delay, so it is omitted;
all other fields are carried verbatim. -/
structure RateLimiter where
  max_requests_per_minute : ℕ
  backoff_factor : ℚ
  consecutive_errors : ℕ
  base_delay : ℚ
  success_streak : ℕ
  current_delay : ℚ
deriving Repr, DecidableEq

/-- `RateLimiter.__init__`: `base_delay = 60 / max_requests_per_minute`,
counters zeroed, `current_delay = base_delay`. -/
def RateLimiter.init (max_requests_per_minute : ℕ) (backoff_factor : ℚ) :
    RateLimiter :=
  let base : ℚ := 60 / (max_requests_per_minute : ℚ)
  { max_requests_per_minute := max_requests_per_minute
    backoff_factor := backoff_factor
    consecutive_errors := 0
    base_delay := base
    success_streak := 0
    current_delay := base }

/-- `RateLimiter.record_success` (src/rate_limiter.py lines 46-54):
reset `consecutive_errors`, increment `success_streak`, and when the
incremented streak exceeds 10 decay the delay to
`max(base_delay, current_delay * 0.9)` and reset the streak. -/
def RateLimiter.record_success (s : RateLimiter) : RateLimiter :=
  let streak := s.success_streak + 1
  if streak > 10 then
    { s with consecutive_errors := 0
             success_streak := 0
             current_delay := max s.base_delay (s.current_delay * (9 / 10)) }
  else
    { s with consecutive_errors := 0, success_streak := streak }

/-- `RateLimiter.record_error` (src/rate_limiter.py lines 56-67):
increment `consecutive_errors`, reset `success_streak`, and set
`current_delay = min(base_delay * backoff_factor ** consecutive_errors, 30)`
using the incremented error count. -/
def RateLimiter.record_error (s : RateLimiter) : RateLimiter :=
  let errs := s.consecutive_errors + 1
  { s with consecutive_errors := errs
           success_streak := 0
           current_delay := min (s.base_delay * s.backoff_factor ^ errs) 30 }

section RateLimiterLemmas

open RateLimiter

lemma record_error_base (s : RateLimiter) :
    (record_error s).base_delay = s.base_delay := rfl

lemma record_error_backoff (s : RateLimiter) :
    (record_error s).backoff_factor = s.backoff_factor := rfl

lemma record_error_errors (s : RateLimiter) :
    (record_error s).consecutive_errors = s.consecutive_errors + 1 := rfl

lemma record_error_iterate_base (s : RateLimiter) (k : ℕ) :
    (record_error^[k] s).base_delay = s.base_delay := by
  induction k with
  | zero => rfl
  | succ k ih => rw [Function.iterate_succ_apply', record_error_base, ih]

lemma record_error_iterate_backoff (s : RateLimiter) (k : ℕ) :
    (record_error^[k] s).backoff_factor = s.backoff_factor := by
  induction k with
  | zero => rfl
  | succ k ih => rw [Function.iterate_succ_apply', record_error_backoff, ih]

lemma record_error_iterate_errors (s : RateLimiter) (k : ℕ) :
    (record_error^[k] s).consecutive_errors = s.consecutive_errors + k := by
  induction k with
  | zero => rfl
  | succ k ih => rw [Function.iterate_succ_apply', record_error_errors, ih]; ring

lemma record_error_iterate_delay (s : RateLimiter) (k : ℕ) (hk : 1 ≤ k) :
    (record_error^[k] s).current_delay
      = min (s.base_delay * s.backoff_factor ^ (s.consecutive_errors + k)) 30 := by
  obtain ⟨m, rfl⟩ := Nat.exists_eq_add_of_le hk
  rw [Nat.add_comm 1 m, Function.iterate_succ_apply']
  show min ((record_error^[m] s).base_delay *
      (record_error^[m] s).backoff_factor ^
        ((record_error^[m] s).consecutive_errors + 1)) 30 = _
  rw [record_error_iterate_base, record_error_iterate_backoff,
    record_error_iterate_errors, Nat.add_assoc]

lemma record_success_def (s : RateLimiter) :
    record_success s =
      if s.success_streak + 1 > 10 then
        { s with consecutive_errors := 0
                 success_streak := 0
                 current_delay := max s.base_delay (s.current_delay * (9 / 10)) }
      else
        { s with consecutive_errors := 0
                 success_streak := s.success_streak + 1 } := rfl

lemma record_success_errors (s : RateLimiter) :
    (record_success s).consecutive_errors = 0 := by
  rw [record_success_def]
  split <;> rfl

lemma record_success_base (s : RateLimiter) :
    (record_success s).base_delay = s.base_delay := by
  rw [record_success_def]
  split <;> rfl

lemma record_success_decay (s : RateLimiter) (h : s.success_streak + 1 > 10) :
    (record_success s).success_streak = 0
    ∧ (record_success s).current_delay
        = max s.base_delay (s.current_delay * (9 / 10)) := by
  rw [record_success_def, if_pos h]
  exact ⟨rfl, rfl⟩

lemma record_success_no_decay (s : RateLimiter) (h : ¬ s.success_streak + 1 > 10) :
    (record_success s).success_streak = s.success_streak + 1
    ∧ (record_success s).current_delay = s.current_delay := by
  rw [record_success_def, if_neg h]
  exact ⟨rfl, rfl⟩

lemma record_success_floor_step (s : RateLimiter)
    (h : s.base_delay ≤ s.current_delay) :
    (record_success s).base_delay ≤ (record_success s).current_delay := by
  by_cases hgt : s.success_streak + 1 > 10
  · rw [record_success_base, (record_success_decay s hgt).2]
    exact le_max_left _ _
  · rw [record_success_base, (record_success_no_decay s hgt).2]
    exact h

lemma record_success_iterate_floor (s : RateLimiter)
    (h : s.base_delay ≤ s.current_delay) (n : ℕ) :
    (record_success^[n] s).base_delay = s.base_delay
    ∧ s.base_delay ≤ (record_success^[n] s).current_delay := by
  induction n with
  | zero => exact ⟨rfl, h⟩
  | succ n ih =>
    refine ⟨?_, ?_⟩
    · rw [Function.iterate_succ_apply', record_success_base, ih.1]
    · rw [Function.iterate_succ_apply']
      have := record_success_floor_step (record_success^[n] s) (ih.1 ▸ ih.2)
      rw [record_success_base, ih.1] at this
      exact this

end RateLimiterLemmas

/-- C6: `record_error` sets the delay to
`min(base_delay * backoff_factor ^ consecutive_errors, 30)` with the
incremented error counter, resets the success streak, and increments the
error counter; for any run of consecutive `record_error` calls with no
intervening `record_success` (backoff factor at least 1, nonnegative base
delay), the delays the calls produce are non-decreasing and never exceed
the 30-second cap. -/
theorem record_error_backoff_spec (s : RateLimiter)
    (hb : 1 ≤ s.backoff_factor) (h0 : 0 ≤ s.base_delay) :
    (RateLimiter.record_error s).consecutive_errors = s.consecutive_errors + 1
    ∧ (RateLimiter.record_error s).success_streak = 0
    ∧ (RateLimiter.record_error s).current_delay
        = min (s.base_delay * s.backoff_factor ^ (s.consecutive_errors + 1)) 30
    ∧ ∀ k, 1 ≤ k →
        (RateLimiter.record_error^[k] s).current_delay
            ≤ (RateLimiter.record_error^[k + 1] s).current_delay
        ∧ (RateLimiter.record_error^[k] s).current_delay ≤ 30 := by
  refine ⟨rfl, rfl, rfl, ?_⟩
  intro k hk
  rw [record_error_iterate_delay s k hk,
    record_error_iterate_delay s (k + 1) (by omega)]
  constructor
  · refine min_le_min ?_ le_rfl
    refine mul_le_mul_of_nonneg_left ?_ h0
    exact pow_le_pow_right₀ hb (by omega)
  · exact min_le_right _ _

/-- Witness for C6 at a limiter built with the config defaults
(60 requests per minute, backoff factor 2). -/
theorem record_error_backoff_spec_witness :
    1 ≤ (RateLimiter.init 60 2).backoff_factor
    ∧ 0 ≤ (RateLimiter.init 60 2).base_delay
    ∧ (RateLimiter.record_error^[2]
        (RateLimiter.init 60 2)).current_delay ≤ 30 :=
  ⟨by norm_num [RateLimiter.init], by norm_num [RateLimiter.init],
    ((record_error_backoff_spec (RateLimiter.init 60 2)
      (by norm_num [RateLimiter.init]) (by norm_num [RateLimiter.init])).2.2.2
      2 (by omega)).2⟩

/-- C7 counterexample: from the default limiter after one error
(`base_delay = 1`, `current_delay = 2`), ten consecutive `record_success`
calls end with `success_streak = 10` and `current_delay = 2`: the decay
the claim places at the tenth success (which would give delay
`max(1, 2 * 0.9) = 1.8` and streak 0) has not happened, because the code
decays only when the streak exceeds 10. -/
theorem record_success_tenth_no_decay :
    (RateLimiter.record_success^[10]
        (RateLimiter.record_error (RateLimiter.init 60 2))).success_streak = 10
    ∧ (RateLimiter.record_success^[10]
        (RateLimiter.record_error (RateLimiter.init 60 2))).current_delay = 2 := by
  have h : RateLimiter.record_success^[10]
      (RateLimiter.record_error (RateLimiter.init 60 2)) =
    RateLimiter.record_success (RateLimiter.record_success
      (RateLimiter.record_success (RateLimiter.record_success
        (RateLimiter.record_success (RateLimiter.record_success
          (RateLimiter.record_success (RateLimiter.record_success
            (RateLimiter.record_success (RateLimiter.record_success
              (RateLimiter.record_error (RateLimiter.init 60 2))))))))))) := by
    norm_num [Function.iterate_succ_apply, Function.iterate_zero_apply]
  rw [h]
  norm_num [RateLimiter.init, record_success_def, RateLimiter.record_error]

/-- C7 amended: `record_success` resets the consecutive-error counter and
increments the success streak; exactly when the incremented streak exceeds
10 (that is, on the 11th consecutive success, not the 10th) it decays the
delay to `max(base_delay, current_delay * 0.9)` and resets the streak;
and the decay never takes the delay below `base_delay`: starting from any
delay at least `base_delay`, any number of consecutive `record_success`
calls keeps the delay at least `base_delay`. -/
theorem record_success_spec (s : RateLimiter) :
    (RateLimiter.record_success s).consecutive_errors = 0
    ∧ (s.success_streak + 1 > 10 →
        (RateLimiter.record_success s).success_streak = 0
        ∧ (RateLimiter.record_success s).current_delay
            = max s.base_delay (s.current_delay * (9 / 10)))
    ∧ (s.success_streak + 1 ≤ 10 →
        (RateLimiter.record_success s).success_streak = s.success_streak + 1
        ∧ (RateLimiter.record_success s).current_delay = s.current_delay)
    ∧ (s.base_delay ≤ s.current_delay →
        ∀ n, s.base_delay ≤ (RateLimiter.record_success^[n] s).current_delay) :=
  ⟨record_success_errors s,
    fun h => record_success_decay s h,
    fun h => record_success_no_decay s (by omega),
    fun h n => (record_success_iterate_floor s h n).2⟩

/-- Witness for C7's amended theorem at the default limiter after one
error: the non-decay branch applies at streak 0 and the floor holds after
three successes. -/
theorem record_success_spec_witness :
    ((RateLimiter.record_error (RateLimiter.init 60 2)).success_streak + 1 ≤ 10
      ∧ (RateLimiter.record_success
          (RateLimiter.record_error (RateLimiter.init 60 2))).current_delay
        = (RateLimiter.record_error (RateLimiter.init 60 2)).current_delay)
    ∧ (RateLimiter.record_error (RateLimiter.init 60 2)).base_delay
        ≤ (RateLimiter.record_success^[3]
            (RateLimiter.record_error (RateLimiter.init 60 2))).current_delay :=
  ⟨⟨by norm_num [RateLimiter.init, RateLimiter.record_error],
    ((record_success_spec (RateLimiter.record_error (RateLimiter.init 60 2))).2.2.1
      (by norm_num [RateLimiter.init, RateLimiter.record_error])).2⟩,
    (record_success_spec (RateLimiter.record_error (RateLimiter.init 60 2))).2.2.2
      (by norm_num [RateLimiter.init, RateLimiter.record_error]) 3⟩

/-- Outcome of one HTTP fetch inside `ImageScraper.download_image`
(src/image_scraper.py lines 178-193): either a response with a status code
(`response.status`), or a raised exception (network error, timeout). -/
inductive Resp
  | status (code : ℕ)
  | netErr
deriving Repr, DecidableEq

/-- The parts of `ImageScraper` (src/image_scraper.py) that
`download_image` reads. `md5hex` stands for
`hashlib.md5(url.encode()).hexdigest()` and `extOf` for
`os.path.splitext(urlparse(url).path)[1]`; both are pure functions of the
URL, kept abstract because the hash itself is an external library. -/
structure ImageScraper where
  images_directory : String
  md5hex : String → String
  extOf : String → String

/-- Safe filename generated by `download_image` (lines 165-169):
`f"{shotdeck_id}_{url_hash}{file_extension}"` where `url_hash` is the
first 10 hex digits of the URL's md5 and the extension defaults to
`.jpg` when the URL path has none. -/
def ImageScraper.filename (c : ImageScraper)
    (image_url shotdeck_id : String) : String :=
  let url_hash := (c.md5hex image_url).take 10
  let ext := c.extOf image_url
  let file_extension := if ext = "" then ".jpg" else ext
  shotdeck_id ++ "_" ++ url_hash ++ file_extension

/-- Destination path of `download_image` (line 170):
`self.images_directory / filename`. -/
def ImageScraper.filepath (c : ImageScraper)
    (image_url shotdeck_id : String) : String :=
  c.images_directory ++ "/" ++ c.filename image_url shotdeck_id

/-- Result of a `download_image` call: the returned local path, the
`None` return on a non-200 status, or a raised error after the tenacity
retries are exhausted. -/
inductive DownloadRes
  | success (path : String)
  | noResult
  | failed
deriving Repr, DecidableEq

/-- A `download_image` call's result together with the final set of
files on disk and the number of HTTP fetches issued. -/
structure DownloadOut where
  res : DownloadRes
  fs : List String
  fetches : ℕ
deriving Repr, DecidableEq

/-- One tenacity attempt round of `download_image` (lines 157-193), with
`n` attempts remaining, `fs` the files on disk and `k` fetches issued so
far. Each attempt returns the cached path if the file already exists
(lines 172-175); otherwise it fetches: status 200 writes the file and
returns the path, any other status logs and returns `None` (no exception,
so tenacity does not retry), and a raised network error re-raises so
tenacity retries; `stop_after_attempt(3)` gives 3 attempts, after which
the call fails. -/
def ImageScraper.downloadAttempts (c : ImageScraper)
    (image_url shotdeck_id : String) (responses : ℕ → Resp) :
    ℕ → List String → ℕ → DownloadOut
  | 0, fs, k => ⟨.failed, fs, k⟩
  | n + 1, fs, k =>
    if c.filepath image_url shotdeck_id ∈ fs then
      ⟨.success (c.filepath image_url shotdeck_id), fs, k⟩
    else
      match responses k with
      | .status code =>
          if code = 200 then
            ⟨.success (c.filepath image_url shotdeck_id),
              c.filepath image_url shotdeck_id :: fs, k + 1⟩
          else ⟨.noResult, fs, k + 1⟩
      | .netErr => c.downloadAttempts image_url shotdeck_id responses n fs (k + 1)

lemma downloadAttempts_zero (c : ImageScraper)
    (image_url shotdeck_id : String) (responses : ℕ → Resp)
    (fs : List String) (k : ℕ) :
    c.downloadAttempts image_url shotdeck_id responses 0 fs k
      = ⟨.failed, fs, k⟩ := rfl

lemma downloadAttempts_cached (c : ImageScraper)
    (image_url shotdeck_id : String) (responses : ℕ → Resp)
    (n : ℕ) (fs : List String) (k : ℕ)
    (hfp : c.filepath image_url shotdeck_id ∈ fs) :
    c.downloadAttempts image_url shotdeck_id responses (n + 1) fs k
      = ⟨.success (c.filepath image_url shotdeck_id), fs, k⟩ := by
  rw [ImageScraper.downloadAttempts, if_pos hfp]

lemma downloadAttempts_status (c : ImageScraper)
    (image_url shotdeck_id : String) (responses : ℕ → Resp)
    (n : ℕ) (fs : List String) (k : ℕ) (code : ℕ)
    (hfp : c.filepath image_url shotdeck_id ∉ fs)
    (hr : responses k = Resp.status code) :
    c.downloadAttempts image_url shotdeck_id responses (n + 1) fs k
      = if code = 200 then
          ⟨.success (c.filepath image_url shotdeck_id),
            c.filepath image_url shotdeck_id :: fs, k + 1⟩
        else ⟨.noResult, fs, k + 1⟩ := by
  rw [ImageScraper.downloadAttempts, if_neg hfp, hr]

lemma downloadAttempts_netErr (c : ImageScraper)
    (image_url shotdeck_id : String) (responses : ℕ → Resp)
    (n : ℕ) (fs : List String) (k : ℕ)
    (hfp : c.filepath image_url shotdeck_id ∉ fs)
    (hr : responses k = Resp.netErr) :
    c.downloadAttempts image_url shotdeck_id responses (n + 1) fs k
      = c.downloadAttempts image_url shotdeck_id responses n fs (k + 1) := by
  rw [ImageScraper.downloadAttempts, if_neg hfp, hr]

lemma downloadAttempts_allNetErr (c : ImageScraper)
    (image_url shotdeck_id : String) (responses : ℕ → Resp)
    (fs : List String) (hfp : c.filepath image_url shotdeck_id ∉ fs) :
    ∀ (n k : ℕ), (∀ j, j < n → responses (k + j) = Resp.netErr) →
      c.downloadAttempts image_url shotdeck_id responses n fs k
        = ⟨.failed, fs, k + n⟩ := by
  intro n
  induction n with
  | zero =>
    intro k _
    rw [downloadAttempts_zero, Nat.add_zero]
  | succ n ih =>
    intro k hall
    rw [downloadAttempts_netErr c image_url shotdeck_id responses n fs k hfp
        (by simpa using hall 0 (by omega)),
      ih (k + 1) (fun j hj => by
        have h := hall (j + 1) (by omega)
        rwa [show k + 1 + j = k + (j + 1) by omega]),
      show k + 1 + n = k + (n + 1) by omega]

/-- `ImageScraper.download_image` (src/image_scraper.py lines 157-193):
the tenacity-retried attempt loop with `stop_after_attempt(3)`, started
on a disk state `fs` with the per-fetch outcomes `responses`. -/
def ImageScraper.download_image (c : ImageScraper)
    (image_url shotdeck_id : String) (responses : ℕ → Resp)
    (fs : List String) : DownloadOut :=
  c.downloadAttempts image_url shotdeck_id responses 3 fs 0

lemma downloadAttempts_success (c : ImageScraper)
    (image_url shotdeck_id : String) (responses : ℕ → Resp) (p : String) :
    ∀ (n : ℕ) (fs : List String) (k : ℕ),
      (c.downloadAttempts image_url shotdeck_id responses n fs k).res
          = DownloadRes.success p →
      p = c.filepath image_url shotdeck_id
      ∧ p ∈ (c.downloadAttempts image_url shotdeck_id responses n fs k).fs := by
  intro n
  induction n with
  | zero =>
    intro fs k h
    rw [downloadAttempts_zero] at h
    exact absurd h (by simp)
  | succ n ih =>
    intro fs k h
    by_cases hfp : c.filepath image_url shotdeck_id ∈ fs
    · rw [downloadAttempts_cached c image_url shotdeck_id responses n fs k hfp]
        at h ⊢
      have hp : c.filepath image_url shotdeck_id = p := by simpa using h
      exact ⟨hp.symm, by simpa using (hp ▸ hfp)⟩
    · cases hr : responses k with
      | status code =>
        rw [downloadAttempts_status c image_url shotdeck_id responses n fs k
          code hfp hr] at h ⊢
        by_cases hc : code = 200
        · rw [if_pos hc] at h ⊢
          have hp : c.filepath image_url shotdeck_id = p := by simpa using h
          exact ⟨hp.symm, by simp [hp]⟩
        · rw [if_neg hc] at h
          exact absurd h (by simp)
      | netErr =>
        rw [downloadAttempts_netErr c image_url shotdeck_id responses n fs k
          hfp hr] at h ⊢
        exact ih fs (k + 1) h

/-- C3: `download_image` is idempotent on success. The returned path is
the deterministic destination `filepath` (record key plus the md5 hash
fragment of the URL); after a first call that returned success, a second
call with the same `(url, recordKey)` — whatever the network would now
answer — returns the same path with zero fetches, because the file
already exists at the destination. -/
theorem download_image_idempotent (c : ImageScraper)
    (image_url shotdeck_id : String) (responses responses₂ : ℕ → Resp)
    (fs : List String) (p : String)
    (h : (c.download_image image_url shotdeck_id responses fs).res
        = DownloadRes.success p) :
    p = c.filepath image_url shotdeck_id
    ∧ c.download_image image_url shotdeck_id responses₂
        (c.download_image image_url shotdeck_id responses fs).fs
      = ⟨DownloadRes.success p,
          (c.download_image image_url shotdeck_id responses fs).fs, 0⟩ := by
  obtain ⟨hp, hmem⟩ := downloadAttempts_success c image_url shotdeck_id
    responses p 3 fs 0 h
  refine ⟨hp, ?_⟩
  have hmem' : c.filepath image_url shotdeck_id
      ∈ (c.download_image image_url shotdeck_id responses fs).fs := hp ▸ hmem
  rw [ImageScraper.download_image, show (3 : ℕ) = 2 + 1 from rfl,
    downloadAttempts_cached c image_url shotdeck_id responses₂ 2 _ 0 hmem', hp]

/-- Sample scraper configuration used to instantiate the download model
on concrete inputs. -/
def sampleScraper : ImageScraper :=
  { images_directory := "./downloaded_images"
    md5hex := fun _ => "0123456789abcdef"
    extOf := fun _ => ".jpg" }

/-- Witness for C3: on a fresh disk with a 200 response the first call
succeeds, and the theorem yields the deterministic path and the
fetch-free second call. -/
theorem download_image_idempotent_witness :
    (sampleScraper.download_image "u" "i" (fun _ => Resp.status 200) []).res
        = DownloadRes.success "./downloaded_images/i_0123456789.jpg"
    ∧ sampleScraper.download_image "u" "i" (fun _ => Resp.netErr)
        (sampleScraper.download_image "u" "i" (fun _ => Resp.status 200) []).fs
      = ⟨DownloadRes.success "./downloaded_images/i_0123456789.jpg",
          (sampleScraper.download_image "u" "i" (fun _ => Resp.status 200) []).fs,
          0⟩ :=
  ⟨by decide,
    (download_image_idempotent sampleScraper "u" "i"
      (fun _ => Resp.status 200) (fun _ => Resp.netErr) []
      "./downloaded_images/i_0123456789.jpg" (by decide)).2⟩

/-- C4 counterexample: with the destination file absent and the server
answering HTTP 500, `download_image` returns `None` after exactly one
fetch — no retry happens and no download error is raised, contrary to
the claim that non-2xx statuses are retried and end in a download
error. -/
theorem download_image_http_no_retry :
    sampleScraper.download_image "u" "i" (fun _ => Resp.status 500) []
      = ⟨DownloadRes.noResult, [], 1⟩ := by decide

/-- C4 amended: `download_image` makes up to 3 attempts (tenacity
`stop_after_attempt(3)` with exponential back-off between them) and
retries only attempts that raise (network errors): a non-2xx HTTP
response makes the call return no result after that single fetch, with
no retry and no error; three raising attempts exhaust the retries and
the call fails with a download error; a raising attempt followed by a
200 response succeeds on the retry. -/
theorem download_image_retry_spec (c : ImageScraper)
    (image_url shotdeck_id : String) (responses : ℕ → Resp)
    (fs : List String) (code : ℕ)
    (hfp : c.filepath image_url shotdeck_id ∉ fs) :
    (responses 0 = Resp.status code → code ≠ 200 →
        c.download_image image_url shotdeck_id responses fs
          = ⟨DownloadRes.noResult, fs, 1⟩)
    ∧ ((∀ k, k < 3 → responses k = Resp.netErr) →
        c.download_image image_url shotdeck_id responses fs
          = ⟨DownloadRes.failed, fs, 3⟩)
    ∧ (responses 0 = Resp.netErr → responses 1 = Resp.status 200 →
        c.download_image image_url shotdeck_id responses fs
          = ⟨DownloadRes.success (c.filepath image_url shotdeck_id),
              c.filepath image_url shotdeck_id :: fs, 2⟩) := by
  refine ⟨?_, ?_, ?_⟩
  · intro h0 hc
    rw [ImageScraper.download_image, show (3 : ℕ) = 2 + 1 from rfl,
      downloadAttempts_status c image_url shotdeck_id responses 2 fs 0 code
        hfp h0, if_neg hc]
  · intro hall
    have := downloadAttempts_allNetErr c image_url shotdeck_id responses fs
      hfp 3 0 (fun j hj => by simpa using hall j hj)
    rw [ImageScraper.download_image, this]
  · intro h0 h1
    rw [ImageScraper.download_image, show (3 : ℕ) = 2 + 1 from rfl,
      downloadAttempts_netErr c image_url shotdeck_id responses 2 fs 0 hfp h0,
      show (2 : ℕ) = 1 + 1 from rfl,
      downloadAttempts_status c image_url shotdeck_id responses 1 fs (0 + 1)
        200 hfp (by simpa using h1)]
    simp

/-- Witness for C4's amended theorem: concrete instances of all three
branches on a fresh disk. -/
theorem download_image_retry_spec_witness :
    sampleScraper.filepath "u" "i" ∉ ([] : List String)
    ∧ sampleScraper.download_image "u" "i" (fun _ => Resp.status 500) []
        = ⟨DownloadRes.noResult, [], 1⟩
    ∧ sampleScraper.download_image "u" "i" (fun _ => Resp.netErr) []
        = ⟨DownloadRes.failed, [], 3⟩
    ∧ sampleScraper.download_image "u" "i"
        (fun k => if k = 0 then Resp.netErr else Resp.status 200) []
      = ⟨DownloadRes.success (sampleScraper.filepath "u" "i"),
          sampleScraper.filepath "u" "i" :: [], 2⟩ :=
  ⟨List.not_mem_nil _,
    (download_image_retry_spec sampleScraper "u" "i" (fun _ => Resp.status 500)
      [] 500 (List.not_mem_nil _)).1 rfl (by omega),
    (download_image_retry_spec sampleScraper "u" "i" (fun _ => Resp.netErr)
      [] 0 (List.not_mem_nil _)).2.1 (fun k _ => rfl),
    (download_image_retry_spec sampleScraper "u" "i"
      (fun k => if k = 0 then Resp.netErr else Resp.status 200)
      [] 0 (List.not_mem_nil _)).2.2 rfl rfl⟩

/-- A row of the `images` table (src/database.py). `shotdeck_id` is the
`UNIQUE`-indexed source id; `title` stands for the remaining payload
columns, which play no role in the uniqueness claims. -/
structure DBRow where
  shotdeck_id : String
  title : String
deriving Repr, DecidableEq

/-- The `shotdeck_id` column of a table state. -/
def storeIds (store : List DBRow) : List String :=
  store.map DBRow.shotdeck_id

/-- `DatabaseManager._save_sqlite_record` (src/database.py lines 103-136):
an `INSERT OR IGNORE` against the `shotdeck_id UNIQUE` constraint — a
duplicate key leaves the table unchanged — and `True` is returned in both
cases. The except branch (connection or commit failure, returning
`False`) is an external I/O event outside this model. -/
def save_sqlite_record (store : List DBRow) (r : DBRow) : List DBRow × Bool :=
  if r.shotdeck_id ∈ storeIds store then (store, true)
  else (store ++ [r], true)

/-- `DatabaseManager._save_postgres_record` (src/database.py lines
138-153): a plain `session.add` followed by `commit`, with no conflict
handling, so committing a duplicate `shotdeck_id` violates the unique
constraint; the raised error is caught by the except branch, which
returns `False` and leaves the table unchanged. -/
def save_postgres_record (store : List DBRow) (r : DBRow) : List DBRow × Bool :=
  if r.shotdeck_id ∈ storeIds store then (store, false)
  else (store ++ [r], true)

/-- C5 counterexample: re-inserting the already-present id into the
PostgreSQL branch returns `False` — the caught unique-violation is
reported exactly like a storage failure — although the store is intact
and no storage failure happened, contrary to the claim that both
branches return true on a no-op re-insertion. -/
theorem save_postgres_duplicate_false :
    save_postgres_record [⟨"a", "t"⟩] ⟨"a", "u"⟩ = ([⟨"a", "t"⟩], false) := by
  decide

/-- C5 amended: re-inserting an existing `sourceId` never raises and
never creates a duplicate row in either branch, and the SQLite branch
returns true both on a new insert and on a no-op re-insertion; but the
PostgreSQL branch returns true only on a new insert and returns false on
a duplicate (the unique violation is caught and reported as a failure). -/
theorem save_record_spec (store : List DBRow) (r : DBRow)
    (hnd : (storeIds store).Nodup) :
    (r.shotdeck_id ∈ storeIds store →
        save_sqlite_record store r = (store, true)
        ∧ save_postgres_record store r = (store, false))
    ∧ (r.shotdeck_id ∉ storeIds store →
        save_sqlite_record store r = (store ++ [r], true)
        ∧ save_postgres_record store r = (store ++ [r], true))
    ∧ (storeIds (save_sqlite_record store r).1).Nodup
    ∧ (storeIds (save_postgres_record store r).1).Nodup := by
  refine ⟨?_, ?_, ?_, ?_⟩
  · intro h
    rw [save_sqlite_record, if_pos h, save_postgres_record, if_pos h]
    exact ⟨rfl, rfl⟩
  · intro h
    rw [save_sqlite_record, if_neg h, save_postgres_record, if_neg h]
    exact ⟨rfl, rfl⟩
  · rw [save_sqlite_record]
    split
    · exact hnd
    · simp only [storeIds, List.map_append, List.map_cons, List.map_nil]
      rw [List.nodup_append]
      refine ⟨hnd, List.nodup_singleton _, ?_⟩
      intro x hx hx1
      rw [List.mem_singleton] at hx1
      subst hx1
      exact absurd hx (by assumption)
  · rw [save_postgres_record]
    split
    · exact hnd
    · simp only [storeIds, List.map_append, List.map_cons, List.map_nil]
      rw [List.nodup_append]
      refine ⟨hnd, List.nodup_singleton _, ?_⟩
      intro x hx hx1
      rw [List.mem_singleton] at hx1
      subst hx1
      exact absurd hx (by assumption)

/-- Witness for C5's amended theorem on a one-row table: a duplicate and
a fresh insert in both branches. -/
theorem save_record_spec_witness :
    (storeIds [⟨"a", "t"⟩]).Nodup
    ∧ save_sqlite_record [⟨"a", "t"⟩] ⟨"a", "u"⟩ = ([⟨"a", "t"⟩], true)
    ∧ save_sqlite_record [⟨"a", "t"⟩] ⟨"b", "u"⟩
        = ([⟨"a", "t"⟩, ⟨"b", "u"⟩], true)
    ∧ save_postgres_record [⟨"a", "t"⟩] ⟨"b", "u"⟩
        = ([⟨"a", "t"⟩, ⟨"b", "u"⟩], true) :=
  ⟨by decide,
    ((save_record_spec [⟨"a", "t"⟩] ⟨"a", "u"⟩ (by decide)).1 (by decide)).1,
    ((save_record_spec [⟨"a", "t"⟩] ⟨"b", "u"⟩ (by decide)).2.1 (by decide)).1,
    ((save_record_spec [⟨"a", "t"⟩] ⟨"b", "u"⟩ (by decide)).2.1 (by decide)).2⟩

/-- `BrowserPool` state (src/rate_limiter.py lines 77-128): the launched
browser handles, the per-browser page pools, and the contents of the
`available_pages` asyncio queue, all modelled by abstract handles. -/
structure BrowserPool where
  browsers : List ℕ
  page_pools : List ℕ
  available_pages : List (ℕ × ℕ)
deriving Repr, DecidableEq

/-- Result of `BrowserPool.get_page` (lines 115-117). The call is
`await self.available_pages.get()`: it dequeues when the queue is
non-empty and otherwise suspends until someone puts an item —
`asyncio.Queue.get` raises nothing on an empty queue. -/
inductive GetPage
  | got (bp : ℕ × ℕ) (rest : List (ℕ × ℕ))
  | suspended
deriving Repr, DecidableEq

/-- `BrowserPool.get_page` (src/rate_limiter.py lines 115-117). -/
def BrowserPool.get_page (p : BrowserPool) : GetPage :=
  match p.available_pages with
  | [] => .suspended
  | x :: xs => .got x xs

/-- `BrowserPool.close_all` (src/rate_limiter.py lines 123-128): closes
every browser and clears `browsers` and `page_pools`; the
`available_pages` queue is neither drained nor poisoned and no closed
flag exists in the class. -/
def BrowserPool.close_all (p : BrowserPool) : BrowserPool :=
  { p with browsers := [], page_pools := [] }

/-- C9: evaluating the code at the failing input. On a pool whose pages
are all checked out, a `get_page` call after `close_all` suspends
indefinitely on the empty queue instead of failing fast with an error;
and on a pool with a queued page, `close_all` leaves the stale page in
the queue and `get_page` hands it out instead of erroring. -/
theorem get_page_after_close_all :
    (BrowserPool.close_all ⟨[0, 1], [0, 1], []⟩).get_page = GetPage.suspended
    ∧ (BrowserPool.close_all ⟨[0, 1], [0, 1], [(0, 0)]⟩).available_pages
        = [(0, 0)]
    ∧ (BrowserPool.close_all ⟨[0, 1], [0, 1], [(0, 0)]⟩).get_page
        = GetPage.got (0, 0) [] := by
  decide

/-- A record extracted from a browse page by `extract_image_data`
(src/main_scraper.py line 82): its `shotdeck_id`, plus whether the later
`get_detailed_image_info` call for it succeeds — failure is the caught
per-record exception branch of lines 114-117. -/
structure PageRecord where
  shotdeck_id : String
  enrich_ok : Bool
deriving Repr, DecidableEq

/-- The database row `save_image_record` writes for a record (line 110);
the payload columns are summarised by `title`. -/
def PageRecord.toRow (r : PageRecord) : DBRow :=
  ⟨r.shotdeck_id, ""⟩

/-- The scraper state threaded through `scrape_page`
(src/main_scraper.py): the in-memory seen-set `stats['existing_ids']`,
the database table, the rate limiter, and the `stats['errors']` and
`stats['images_found']` counters. -/
structure ScrapeState where
  existing_ids : Finset String
  store : List DBRow
  limiter : RateLimiter
  errors : ℕ
  images_found : ℕ
deriving DecidableEq

/-- The dedup filter of `scrape_page` (src/main_scraper.py lines 84-89):
walk the extracted records in order; a record whose `shotdeck_id` is
already in the seen-set is skipped, otherwise it is appended to
`new_images` and its id is added to the seen-set. Returns the new batch
and the updated seen-set. -/
def filterNew (seen : Finset String) :
    List PageRecord → List PageRecord × Finset String
  | [] => ([], seen)
  | r :: rs =>
    if r.shotdeck_id ∈ seen then filterNew seen rs
    else
      let p := filterNew (insert r.shotdeck_id seen) rs
      (r :: p.1, p.2)

/-- The enrichment-and-save loop of `scrape_page` (lines 94-117): for
each new record, a successful `get_detailed_image_info` appends it to
`detailed_images` and saves it through `save_image_record` (the SQLite
branch, the config default); a failed one records a rate-limiter error
and is skipped. Returns the updated state and `detailed_images`. -/
def processNew : ScrapeState → List PageRecord → ScrapeState × List PageRecord
  | st, [] => (st, [])
  | st, r :: rs =>
    if r.enrich_ok then
      let p := processNew
        { st with store := (save_sqlite_record st.store r.toRow).1 } rs
      (p.1, r :: p.2)
    else
      processNew { st with limiter := st.limiter.record_error } rs

/-- What the outside world does during one `scrape_page` call: either an
exception reaches the function's own handler (lines 124-128; e.g. the
login check raise of line 79), or extraction yields a list of records. -/
inductive PageEvent
  | raised
  | content (records : List PageRecord)
deriving Repr, DecidableEq

/-- `ShotdeckScraper.scrape_page` (src/main_scraper.py lines 72-128): on
an exception, its own except branch records a rate-limiter error, bumps
`stats['errors']` and returns `[]`; otherwise it dedup-filters the
extracted records, enriches and saves the new ones, bumps
`stats['images_found']`, records a success and returns the detailed
batch. -/
def scrape_page (st : ScrapeState) (ev : PageEvent) :
    ScrapeState × List PageRecord :=
  match ev with
  | .raised =>
      ({ st with limiter := st.limiter.record_error
                 errors := st.errors + 1 }, [])
  | .content recs =>
      let f := filterNew st.existing_ids recs
      let p := processNew { st with existing_ids := f.2 } f.1
      ({ p.1 with images_found := p.1.images_found + p.2.length
                  limiter := p.1.limiter.record_success }, p.2)

/-- State of the `scrape_all_pages` main loop (src/main_scraper.py lines
204-258): the scraper state plus `consecutive_failures`,
`pages_scraped`, `current_page`, and a count of the fixed
`asyncio.sleep(5)` back-offs the loop's exception handler issues. -/
structure LoopState where
  scr : ScrapeState
  consecutive_failures : ℕ
  pages_scraped : ℕ
  current_page : ℕ
  sleep5_count : ℕ
deriving DecidableEq

/-- What the outside world does during one iteration of the main loop:
an exception raised in the loop body outside `scrape_page` (caught at
lines 249-255), a `navigate_to_page` returning false (lines 215-220), or
a `scrape_page` call running to completion with `has_next_page` then
answering `hasNext`. -/
inductive IterEvent
  | loopRaise
  | navFail
  | page (ev : PageEvent) (hasNext : Bool)
deriving Repr, DecidableEq

/-- One iteration of the `scrape_all_pages` while-loop body (lines
209-255). Returns the new state and whether the loop breaks (the
no-more-pages break of lines 239-241). A loop-level exception increments
`consecutive_failures` and `stats['errors']` and sleeps 5 seconds; a
navigation failure increments `consecutive_failures` and continues; a
completed `scrape_page` resets `consecutive_failures` on a non-empty
batch and increments it on an empty one, then bumps `pages_scraped` and
advances `current_page` when a next page exists. -/
def loopStep (st : LoopState) (e : IterEvent) : LoopState × Bool :=
  match e with
  | .loopRaise =>
      ({ st with consecutive_failures := st.consecutive_failures + 1
                 scr := { st.scr with errors := st.scr.errors + 1 }
                 sleep5_count := st.sleep5_count + 1 }, false)
  | .navFail =>
      ({ st with consecutive_failures := st.consecutive_failures + 1 }, false)
  | .page ev hasNext =>
      let p := scrape_page st.scr ev
      ({ st with scr := p.1
                 consecutive_failures :=
                   if p.2 = [] then st.consecutive_failures + 1 else 0
                 pages_scraped := st.pages_scraped + 1
                 current_page :=
                   if hasNext then st.current_page + 1 else st.current_page },
        !hasNext)

/-- How the main loop ended: the `consecutive_failures <
max_consecutive_failures` guard failed (ceiling 5, lines 206-208), the
no-more-pages break fired, or the supplied event stream ran out. -/
inductive RunExit
  | tooManyFailures
  | noMorePages
  | eventsEnded
deriving Repr, DecidableEq

/-- The `scrape_all_pages` while-loop (lines 208-255) driven by a finite
stream of iteration events: the guard `consecutive_failures < 5` is
checked before each iteration. -/
def runLoop : LoopState → List IterEvent → LoopState × RunExit
  | st, [] =>
      if 5 ≤ st.consecutive_failures then (st, .tooManyFailures)
      else (st, .eventsEnded)
  | st, e :: es =>
      if 5 ≤ st.consecutive_failures then (st, .tooManyFailures)
      else
        let p := loopStep st e
        if p.2 then (p.1, .noMorePages) else runLoop p.1 es

/-- Outcome of a `scrape_all_pages` call (lines 176-261): the loop's
final state and exit, whether the after-loop fatal log of lines 257-258
fired, whether an exception propagated to the caller out of the loop
phase (the loop catches every iteration exception, and the after-loop
code only logs), and how many times the `finally` block ran
`browser_pool.close_all()`. -/
structure RunResult where
  final : LoopState
  exit : RunExit
  fatal_logged : Bool
  raised_to_caller : Bool
  close_all_calls : ℕ
deriving DecidableEq

/-- `ShotdeckScraper.scrape_all_pages`, from the top of the main loop
(line 204) to the end of the function: run the loop, log the fatal
message when `consecutive_failures >= max_consecutive_failures`, and
run the `finally` cleanup once. -/
def scrape_all_pages (st : LoopState) (events : List IterEvent) : RunResult :=
  let p := runLoop st events
  { final := p.1
    exit := p.2
    fatal_logged := 5 ≤ p.1.consecutive_failures
    raised_to_caller := false
    close_all_calls := 1 }

/-- `ShotdeckScraper.initialize` (src/main_scraper.py lines 59-70) as it
feeds the loop: the seen-set is preloaded with
`db_manager.get_existing_ids()` — the distinct `shotdeck_id`s of the
store — and the rate limiter comes from the config defaults
(60 requests per minute, backoff factor 2). -/
def initScrape (store : List DBRow) : ScrapeState :=
  { existing_ids := (storeIds store).toFinset
    store := store
    limiter := RateLimiter.init 60 2
    errors := 0
    images_found := 0 }

/-- The loop state at line 204: counters zeroed, `current_page = 1`. -/
def initLoop (store : List DBRow) : LoopState :=
  { scr := initScrape store
    consecutive_failures := 0
    pages_scraped := 0
    current_page := 1
    sleep5_count := 0 }

/-- The set of source ids occurring in a record list. -/
def idsOf (rs : List PageRecord) : Finset String :=
  (rs.map PageRecord.shotdeck_id).toFinset

lemma idsOf_nil : idsOf [] = ∅ := rfl

lemma idsOf_cons (r : PageRecord) (rs : List PageRecord) :
    idsOf (r :: rs) = insert r.shotdeck_id (idsOf rs) := by
  simp [idsOf]

lemma filterNew_nil (seen : Finset String) : filterNew seen [] = ([], seen) := rfl

lemma filterNew_cons_mem (seen : Finset String) (r : PageRecord)
    (rs : List PageRecord) (h : r.shotdeck_id ∈ seen) :
    filterNew seen (r :: rs) = filterNew seen rs := by
  rw [filterNew, if_pos h]

lemma filterNew_cons_not_mem (seen : Finset String) (r : PageRecord)
    (rs : List PageRecord) (h : r.shotdeck_id ∉ seen) :
    filterNew seen (r :: rs)
      = (r :: (filterNew (insert r.shotdeck_id seen) rs).1,
          (filterNew (insert r.shotdeck_id seen) rs).2) := by
  rw [filterNew, if_neg h]

/-- The dedup filter's behaviour on one page: the seen-set becomes the
union of the old seen-set and the page's ids, the batch carries no
duplicate id, the batch's ids are exactly the page ids that were not yet
seen, and every batch record comes from the page. -/
lemma filterNew_spec (rs : List PageRecord) : ∀ (seen : Finset String),
    (filterNew seen rs).2 = seen ∪ idsOf rs
    ∧ ((filterNew seen rs).1.map PageRecord.shotdeck_id).Nodup
    ∧ idsOf (filterNew seen rs).1 = idsOf rs \ seen
    ∧ ∀ r ∈ (filterNew seen rs).1, r ∈ rs := by
  induction rs with
  | nil =>
    intro seen
    refine ⟨by simp [filterNew_nil, idsOf_nil], by simp [filterNew_nil], ?_, ?_⟩
    · simp [filterNew_nil, idsOf_nil]
    · simp [filterNew_nil]
  | cons r rs ih =>
    intro seen
    by_cases h : r.shotdeck_id ∈ seen
    · obtain ⟨ih1, ih2, ih3, ih4⟩ := ih seen
      rw [filterNew_cons_mem seen r rs h]
      refine ⟨?_, ih2, ?_, fun q hq => List.mem_cons_of_mem _ (ih4 q hq)⟩
      · rw [ih1, idsOf_cons, Finset.union_insert,
          Finset.insert_eq_self.2 (Finset.mem_union_left _ h)]
      · rw [ih3, idsOf_cons, Finset.insert_sdiff_of_mem _ h]
    · obtain ⟨ih1, ih2, ih3, ih4⟩ := ih (insert r.shotdeck_id seen)
      rw [filterNew_cons_not_mem seen r rs h]
      refine ⟨?_, ?_, ?_, ?_⟩
      · rw [ih1, idsOf_cons, Finset.union_insert, Finset.insert_union]
      · refine List.Nodup.cons ?_ ih2
        intro hmem
        have : r.shotdeck_id ∈ idsOf (filterNew (insert r.shotdeck_id seen) rs).1 := by
          simpa [idsOf] using hmem
        rw [ih3, Finset.mem_sdiff] at this
        exact this.2 (Finset.mem_insert_self _ _)
      · rw [idsOf_cons r (filterNew (insert r.shotdeck_id seen) rs).1,
          idsOf_cons r rs, ih3]
        ext x
        by_cases hx : x = r.shotdeck_id
        · simp [hx, h]
        · simp [hx, Finset.mem_sdiff, Finset.mem_insert]
      · intro q hq
        rcases List.mem_cons.1 hq with hq | hq
        · exact hq ▸ List.mem_cons_self _ _
        · exact List.mem_cons_of_mem _ (ih4 q hq)

/-- `save_image_record` (SQLite branch) as a key-set transformer:
inserting adds the key and preserves distinctness of the `UNIQUE`
column. -/
lemma save_sqlite_ids (store : List DBRow) (r : DBRow) :
    (storeIds (save_sqlite_record store r).1).toFinset
      = insert r.shotdeck_id (storeIds store).toFinset
    ∧ ((storeIds store).Nodup → (storeIds (save_sqlite_record store r).1).Nodup) := by
  rw [save_sqlite_record]
  by_cases h : r.shotdeck_id ∈ storeIds store
  · rw [if_pos h]
    exact ⟨(Finset.insert_eq_self.2 (List.mem_toFinset.2 h)).symm, id⟩
  · rw [if_neg h]
    constructor
    · simp only [storeIds, List.map_append, List.map_cons, List.map_nil,
        List.toFinset_append]
      ext x
      simp [or_comm]
    · intro hnd
      simp only [storeIds, List.map_append, List.map_cons, List.map_nil]
      rw [List.nodup_append]
      refine ⟨hnd, List.nodup_singleton _, ?_⟩
      intro x hx hx1
      rw [List.mem_singleton] at hx1
      exact h (hx1 ▸ hx)

/-- The database state after saving a batch of records in order. -/
def saveFold (store : List DBRow) (rs : List PageRecord) : List DBRow :=
  rs.foldl (fun s r => (save_sqlite_record s r.toRow).1) store

lemma saveFold_spec (rs : List PageRecord) : ∀ (store : List DBRow),
    (storeIds (saveFold store rs)).toFinset
        = (storeIds store).toFinset ∪ idsOf rs
    ∧ ((storeIds store).Nodup → (storeIds (saveFold store rs)).Nodup) := by
  induction rs with
  | nil =>
    intro store
    exact ⟨by simp [saveFold, idsOf_nil], id⟩
  | cons r rs ih =>
    intro store
    have hstep : saveFold store (r :: rs)
        = saveFold (save_sqlite_record store r.toRow).1 rs := rfl
    obtain ⟨ih1, ih2⟩ := ih (save_sqlite_record store r.toRow).1
    obtain ⟨h1, h2⟩ := save_sqlite_ids store r.toRow
    rw [hstep]
    constructor
    · rw [ih1, h1, idsOf_cons]
      show insert (r.toRow).shotdeck_id _ ∪ _ = _
      rw [Finset.insert_union, Finset.union_insert]
      rfl
    · intro hnd
      exact ih2 (h2 hnd)

lemma processNew_all_ok (rs : List PageRecord) : ∀ (st : ScrapeState),
    (∀ r ∈ rs, r.enrich_ok = true) →
    (processNew st rs).2 = rs
    ∧ (processNew st rs).1.existing_ids = st.existing_ids
    ∧ (processNew st rs).1.store = saveFold st.store rs := by
  induction rs with
  | nil => intro st _; exact ⟨rfl, rfl, rfl⟩
  | cons r rs ih =>
    intro st hok
    obtain ⟨id_, ok⟩ := r
    have hok0 : ok = true := hok ⟨id_, ok⟩ (List.mem_cons_self _ _)
    subst hok0
    have hcons : processNew st (⟨id_, true⟩ :: rs)
        = ((processNew
              { st with store :=
                  (save_sqlite_record st.store (PageRecord.toRow ⟨id_, true⟩)).1 }
              rs).1,
            ⟨id_, true⟩ ::
              (processNew
                { st with store :=
                    (save_sqlite_record st.store (PageRecord.toRow ⟨id_, true⟩)).1 }
                rs).2) := rfl
    obtain ⟨ih1, ih2, ih3⟩ := ih
      { st with store :=
          (save_sqlite_record st.store (PageRecord.toRow ⟨id_, true⟩)).1 }
      (fun q hq => hok q (List.mem_cons_of_mem _ hq))
    rw [hcons]
    exact ⟨by rw [ih1], ih2, ih3⟩

/-- The store/seen-set effect of a completed `scrape_page` on page
content whose enrichments all succeed, assuming the in-memory seen-set
currently equals the store's distinct-id set. -/
lemma scrape_page_content_inv (st : ScrapeState) (recs : List PageRecord)
    (hok : ∀ r ∈ recs, r.enrich_ok = true)
    (hnd : (storeIds st.store).Nodup)
    (hseen : st.existing_ids = (storeIds st.store).toFinset) :
    (storeIds (scrape_page st (.content recs)).1.store).Nodup
    ∧ (scrape_page st (.content recs)).1.existing_ids
        = st.existing_ids ∪ idsOf recs
    ∧ (scrape_page st (.content recs)).1.existing_ids
        = (storeIds (scrape_page st (.content recs)).1.store).toFinset := by
  obtain ⟨hf1, _, hf3, hf4⟩ := filterNew_spec recs st.existing_ids
  have hokf : ∀ r ∈ (filterNew st.existing_ids recs).1, r.enrich_ok = true :=
    fun r hr => hok r (hf4 r hr)
  obtain ⟨_, hp2, hp3⟩ := processNew_all_ok (filterNew st.existing_ids recs).1
    { st with existing_ids := (filterNew st.existing_ids recs).2 } hokf
  obtain ⟨hs1, hs2⟩ := saveFold_spec (filterNew st.existing_ids recs).1 st.store
  have hscr :
      (scrape_page st (.content recs)).1.store
        = (processNew { st with existing_ids := (filterNew st.existing_ids recs).2 }
            (filterNew st.existing_ids recs).1).1.store
      ∧ (scrape_page st (.content recs)).1.existing_ids
        = (processNew { st with existing_ids := (filterNew st.existing_ids recs).2 }
            (filterNew st.existing_ids recs).1).1.existing_ids := ⟨rfl, rfl⟩
  refine ⟨?_, ?_, ?_⟩
  · rw [hscr.1, hp3]
    exact hs2 hnd
  · rw [hscr.2, hp2, hf1]
  · rw [hscr.2, hp2, hf1, hscr.1, hp3, hs1, hf3, hseen,
      Finset.union_sdiff_self_eq_union]

/-- The scraper state after the run's pages, each handled by
`scrape_page` (the main loop's page events, line 224). -/
def runPages (st : ScrapeState) (pages : List (List PageRecord)) : ScrapeState :=
  pages.foldl (fun s pg => (scrape_page s (.content pg)).1) st

/-- The set of source ids occurring anywhere in the run's pages. -/
def pagesIds : List (List PageRecord) → Finset String
  | [] => ∅
  | pg :: ps => idsOf pg ∪ pagesIds ps

lemma runPages_inv (pages : List (List PageRecord)) : ∀ (st : ScrapeState),
    (∀ pg ∈ pages, ∀ r ∈ pg, r.enrich_ok = true) →
    (storeIds st.store).Nodup →
    st.existing_ids = (storeIds st.store).toFinset →
    (storeIds (runPages st pages).store).Nodup
    ∧ (runPages st pages).existing_ids = st.existing_ids ∪ pagesIds pages
    ∧ (runPages st pages).existing_ids
        = (storeIds (runPages st pages).store).toFinset := by
  induction pages with
  | nil =>
    intro st _ hnd hseen
    exact ⟨hnd, by simp [runPages, pagesIds], hseen⟩
  | cons pg ps ih =>
    intro st hok hnd hseen
    have h1 := scrape_page_content_inv st pg
      (hok pg (List.mem_cons_self _ _)) hnd hseen
    have hstep : runPages st (pg :: ps)
        = runPages (scrape_page st (.content pg)).1 ps := rfl
    obtain ⟨h21, h22, h23⟩ := ih (scrape_page st (.content pg)).1
      (fun q hq => hok q (List.mem_cons_of_mem _ hq)) h1.1 h1.2.2
    rw [hstep]
    refine ⟨h21, ?_, h23⟩
    rw [h22, h1.2.1, pagesIds, Finset.union_assoc]

/-- C1: the dedup filter skips a record exactly when its `shotdeck_id`
is in the in-memory seen-set and otherwise adds it to both the seen-set
and the page's new batch — the post-filter seen-set is the union of the
old one with the page ids and contains the old one, the batch has no
duplicate ids and its ids are exactly the page ids not yet seen; and a
run over any sequence of pages, with the seen-set preloaded from the
store, ends with the store holding exactly one row per distinct id
(distinct keys whose set is the initial ids united with all page ids)
and with the seen-set equal to the store's distinct-id set. Enrichment
is assumed to succeed for every record, as the claim quantifies only
over page contents. -/
theorem dedup_invariant (seen : Finset String) (recs : List PageRecord)
    (store : List DBRow) (pages : List (List PageRecord))
    (hok : ∀ pg ∈ pages, ∀ r ∈ pg, r.enrich_ok = true)
    (hnd : (storeIds store).Nodup) :
    (filterNew seen recs).2 = seen ∪ idsOf recs
    ∧ seen ⊆ (filterNew seen recs).2
    ∧ ((filterNew seen recs).1.map PageRecord.shotdeck_id).Nodup
    ∧ idsOf (filterNew seen recs).1 = idsOf recs \ seen
    ∧ (storeIds (runPages (initScrape store) pages).store).Nodup
    ∧ (storeIds (runPages (initScrape store) pages).store).toFinset
        = (storeIds store).toFinset ∪ pagesIds pages
    ∧ (runPages (initScrape store) pages).existing_ids
        = (storeIds (runPages (initScrape store) pages).store).toFinset := by
  obtain ⟨h1, h2, h3, _⟩ := filterNew_spec recs seen
  obtain ⟨hi1, hi2, hi3⟩ := runPages_inv pages (initScrape store) hok hnd rfl
  refine ⟨h1, ?_, h2, h3, hi1, ?_, hi3⟩
  · rw [h1]
    exact Finset.subset_union_left
  · rw [← hi3, hi2]
    rfl

/-- Witness for C1: a store preloaded with id `a` and two pages with
duplicates within a page, across pages and against the store. -/
theorem dedup_invariant_witness :
    (∀ pg ∈ [[(⟨"a", true⟩ : PageRecord), ⟨"b", true⟩, ⟨"b", true⟩],
              [⟨"b", true⟩, ⟨"c", true⟩]],
        ∀ r ∈ pg, r.enrich_ok = true)
    ∧ (storeIds [(⟨"a", "t"⟩ : DBRow)]).Nodup
    ∧ (storeIds (runPages (initScrape [⟨"a", "t"⟩])
          [[⟨"a", true⟩, ⟨"b", true⟩, ⟨"b", true⟩],
            [⟨"b", true⟩, ⟨"c", true⟩]]).store).Nodup
    ∧ (storeIds (runPages (initScrape [⟨"a", "t"⟩])
          [[⟨"a", true⟩, ⟨"b", true⟩, ⟨"b", true⟩],
            [⟨"b", true⟩, ⟨"c", true⟩]]).store).toFinset
        = (storeIds [(⟨"a", "t"⟩ : DBRow)]).toFinset
            ∪ pagesIds [[⟨"a", true⟩, ⟨"b", true⟩, ⟨"b", true⟩],
                [⟨"b", true⟩, ⟨"c", true⟩]] :=
  ⟨by decide, by decide,
    (dedup_invariant ∅ []
      [⟨"a", "t"⟩]
      [[⟨"a", true⟩, ⟨"b", true⟩, ⟨"b", true⟩], [⟨"b", true⟩, ⟨"c", true⟩]]
      (by decide) (by decide)).2.2.2.2.1,
    (dedup_invariant ∅ []
      [⟨"a", "t"⟩]
      [[⟨"a", true⟩, ⟨"b", true⟩, ⟨"b", true⟩], [⟨"b", true⟩, ⟨"c", true⟩]]
      (by decide) (by decide)).2.2.2.2.2.1⟩

lemma runLoop_nil (st : LoopState) :
    runLoop st []
      = if 5 ≤ st.consecutive_failures then (st, RunExit.tooManyFailures)
        else (st, RunExit.eventsEnded) := rfl

lemma runLoop_cons (st : LoopState) (e : IterEvent) (es : List IterEvent) :
    runLoop st (e :: es)
      = if 5 ≤ st.consecutive_failures then (st, RunExit.tooManyFailures)
        else if (loopStep st e).2 then ((loopStep st e).1, RunExit.noMorePages)
        else runLoop (loopStep st e).1 es := rfl

/-- Once the failure ceiling is reached, the loop guard fails at once:
no further event is consumed and the exit is the failure exit. -/
lemma runLoop_of_ge5 (st : LoopState) (h5 : 5 ≤ st.consecutive_failures)
    (events : List IterEvent) :
    runLoop st events = (st, RunExit.tooManyFailures) := by
  cases events with
  | nil => rw [runLoop_nil, if_pos h5]
  | cons e es => rw [runLoop_cons, if_pos h5]

/-- The failure exit happens only with the guard condition holding at
the final state. -/
lemma runLoop_exit_tooMany (events : List IterEvent) : ∀ (st : LoopState),
    (runLoop st events).2 = RunExit.tooManyFailures →
    5 ≤ (runLoop st events).1.consecutive_failures := by
  induction events with
  | nil =>
    intro st h
    by_cases h5 : 5 ≤ st.consecutive_failures
    · rw [runLoop_nil, if_pos h5]
      exact h5
    · rw [runLoop_nil, if_neg h5] at h
      exact absurd h (by simp)
  | cons e es ih =>
    intro st h
    by_cases h5 : 5 ≤ st.consecutive_failures
    · rw [runLoop_cons, if_pos h5]
      exact h5
    · rw [runLoop_cons, if_neg h5] at h ⊢
      by_cases hb : (loopStep st e).2 = true
      · rw [if_pos hb] at h
        exact absurd h (by simp)
      · rw [Bool.not_eq_true] at hb
        rw [hb] at h ⊢
        rw [if_neg (by simp)] at h ⊢
        exact ih _ h

/-- Five consecutive loop-level failures starting from a fresh loop
state exhaust the ceiling: the loop stops with the failure exit. -/
lemma runLoop_loopRaise5 (store : List DBRow) (rest : List IterEvent) :
    (runLoop (initLoop store)
        (List.replicate 5 IterEvent.loopRaise ++ rest)).2
      = RunExit.tooManyFailures
    ∧ 5 ≤ (runLoop (initLoop store)
        (List.replicate 5 IterEvent.loopRaise ++ rest)).1.consecutive_failures := by
  have h : runLoop (initLoop store)
      (List.replicate 5 IterEvent.loopRaise ++ rest)
      = runLoop
          { scr := { initScrape store with errors := 5 }
            consecutive_failures := 5
            pages_scraped := 0
            current_page := 1
            sleep5_count := 5 } rest := by
    simp only [List.replicate, List.cons_append, List.nil_append]
    rw [runLoop_cons, if_neg (by simp [initLoop])]
    rw [if_neg (by simp [loopStep])]
    rw [runLoop_cons, if_neg (by simp [initLoop, loopStep])]
    rw [if_neg (by simp [loopStep])]
    rw [runLoop_cons, if_neg (by simp [initLoop, loopStep])]
    rw [if_neg (by simp [loopStep])]
    rw [runLoop_cons, if_neg (by simp [initLoop, loopStep])]
    rw [if_neg (by simp [loopStep])]
    rw [runLoop_cons, if_neg (by simp [initLoop, loopStep])]
    rw [if_neg (by simp [loopStep])]
    rfl
  rw [h, runLoop_of_ge5 _ (by norm_num) rest]
  exact ⟨rfl, by norm_num⟩

/-- C2 counterexample: on a run whose loop hits 5 consecutive failures,
`scrape_all_pages` ends with the failure exit, logs the fatal message,
but propagates no error to the caller — the claim's "propagated to the
caller, not merely logged" is false of the code, which only logs at
lines 257-258 and returns normally. -/
theorem five_failures_not_propagated :
    (scrape_all_pages (initLoop [])
        (List.replicate 5 IterEvent.loopRaise)).exit
      = RunExit.tooManyFailures
    ∧ (scrape_all_pages (initLoop [])
        (List.replicate 5 IterEvent.loopRaise)).fatal_logged = true
    ∧ (scrape_all_pages (initLoop [])
        (List.replicate 5 IterEvent.loopRaise)).raised_to_caller = false := by
  obtain ⟨h1, h2⟩ := runLoop_loopRaise5 [] []
  rw [List.append_nil] at h1 h2
  exact ⟨h1, by simpa [scrape_all_pages] using h2, rfl⟩

/-- C2 amended: when `consecutiveFailures` reaches the ceiling of 5 the
loop consumes no further event and exits with the failure exit; the
orchestrator then logs the fatal condition but returns normally — no
error propagates to the caller — and the `finally` cleanup
(`browser_pool.close_all`) runs exactly once; in particular five
consecutive loop-level failures from a fresh run end it that way. -/
theorem five_failures_terminate (st : LoopState) (events : List IterEvent)
    (h5 : 5 ≤ st.consecutive_failures) :
    runLoop st events = (st, RunExit.tooManyFailures)
    ∧ (∀ (st₀ : LoopState) (evs : List IterEvent),
        (scrape_all_pages st₀ evs).raised_to_caller = false
        ∧ (scrape_all_pages st₀ evs).close_all_calls = 1
        ∧ ((scrape_all_pages st₀ evs).exit = RunExit.tooManyFailures →
            (scrape_all_pages st₀ evs).fatal_logged = true))
    ∧ ∀ (store : List DBRow) (rest : List IterEvent),
        (scrape_all_pages (initLoop store)
            (List.replicate 5 IterEvent.loopRaise ++ rest)).exit
          = RunExit.tooManyFailures
        ∧ (scrape_all_pages (initLoop store)
            (List.replicate 5 IterEvent.loopRaise ++ rest)).fatal_logged
          = true := by
  refine ⟨runLoop_of_ge5 st h5 events, ?_, ?_⟩
  · intro st₀ evs
    refine ⟨rfl, rfl, ?_⟩
    intro hexit
    have := runLoop_exit_tooMany evs st₀ hexit
    simpa [scrape_all_pages] using this
  · intro store rest
    obtain ⟨h1, h2⟩ := runLoop_loopRaise5 store rest
    exact ⟨h1, by simpa [scrape_all_pages] using h2⟩

/-- Witness for C2's amended theorem at a state already at the
ceiling. -/
theorem five_failures_terminate_witness :
    5 ≤ ({ scr := initScrape []
           consecutive_failures := 5
           pages_scraped := 3
           current_page := 4
           sleep5_count := 0 } : LoopState).consecutive_failures
    ∧ runLoop
        { scr := initScrape []
          consecutive_failures := 5
          pages_scraped := 3
          current_page := 4
          sleep5_count := 0 } [IterEvent.loopRaise]
      = ({ scr := initScrape []
           consecutive_failures := 5
           pages_scraped := 3
           current_page := 4
           sleep5_count := 0 }, RunExit.tooManyFailures) :=
  ⟨by norm_num,
    (five_failures_terminate
      { scr := initScrape []
        consecutive_failures := 5
        pages_scraped := 3
        current_page := 4
        sleep5_count := 0 } [IterEvent.loopRaise] (by norm_num)).1⟩

/-- C8 counterexample: a run whose single page event raises inside
`scrape_page` ends the iteration with `consecutiveFailures = 1`,
`stats['errors'] = 1` and zero 5-second back-offs — the loop proceeds
immediately, so the claim's "proceeds to the next loop iteration only
after a fixed 5-second back-off" is false for exceptions raised while
scraping a page. -/
theorem page_exception_no_backoff :
    (runLoop (initLoop []) [IterEvent.page PageEvent.raised true]).1.sleep5_count
      = 0
    ∧ (runLoop (initLoop [])
        [IterEvent.page PageEvent.raised true]).1.consecutive_failures = 1
    ∧ (runLoop (initLoop [])
        [IterEvent.page PageEvent.raised true]).1.scr.errors = 1 := by
  rw [runLoop_cons, if_neg (by simp [initLoop])]
  rw [if_neg (by simp [loopStep, scrape_page])]
  refine ⟨?_, ?_, ?_⟩ <;> simp [runLoop_nil, loopStep, scrape_page, initLoop, initScrape]

/-- C8 amended: an exception raised inside `scrape_page` is caught by
`scrape_page` itself, which records a rate-limiter error, bumps
`stats['errors']` and returns the empty batch; the loop then increments
`consecutiveFailures` with NO back-off and continues (it breaks only on
the normal no-next-page check). An exception raised in the loop body
outside `scrape_page` is caught by the loop handler, which increments
`consecutiveFailures` and `stats['errors']` and sleeps the fixed 5
seconds before the next iteration. In neither case does a single
exception abort the run. -/
theorem page_exception_handling (st : LoopState) (hasNext : Bool) :
    (scrape_page st.scr PageEvent.raised).1.errors = st.scr.errors + 1
    ∧ (scrape_page st.scr PageEvent.raised).1.limiter
        = st.scr.limiter.record_error
    ∧ (scrape_page st.scr PageEvent.raised).2 = []
    ∧ (loopStep st (IterEvent.page PageEvent.raised hasNext)).1.consecutive_failures
        = st.consecutive_failures + 1
    ∧ (loopStep st (IterEvent.page PageEvent.raised hasNext)).1.sleep5_count
        = st.sleep5_count
    ∧ (loopStep st (IterEvent.page PageEvent.raised hasNext)).2 = !hasNext
    ∧ (loopStep st IterEvent.loopRaise).1.consecutive_failures
        = st.consecutive_failures + 1
    ∧ (loopStep st IterEvent.loopRaise).1.scr.errors = st.scr.errors + 1
    ∧ (loopStep st IterEvent.loopRaise).1.sleep5_count = st.sleep5_count + 1
    ∧ (loopStep st IterEvent.loopRaise).2 = false := by
  refine ⟨rfl, rfl, rfl, ?_, ?_, rfl, rfl, rfl, rfl, rfl⟩
  · simp [loopStep, scrape_page]
  · simp [loopStep, scrape_page]

/-- A page whose every record id is already seen filters to the empty
batch and leaves the seen-set unchanged. -/
lemma filterNew_all_seen (rs : List PageRecord) : ∀ (seen : Finset String),
    (∀ r ∈ rs, r.shotdeck_id ∈ seen) → filterNew seen rs = ([], seen) := by
  induction rs with
  | nil => intro seen _; rfl
  | cons r rs ih =>
    intro seen h
    rw [filterNew_cons_mem seen r rs (h r (List.mem_cons_self _ _))]
    exact ih seen (fun q hq => h q (List.mem_cons_of_mem _ hq))

/-- A completed `scrape_page` on an all-duplicate (or empty) page
returns the empty batch and preserves the seen-set. -/
lemma scrape_page_all_seen (st : ScrapeState) (recs : List PageRecord)
    (h : ∀ r ∈ recs, r.shotdeck_id ∈ st.existing_ids) :
    (scrape_page st (.content recs)).2 = []
    ∧ (scrape_page st (.content recs)).1.existing_ids = st.existing_ids := by
  have hf := filterNew_all_seen recs st.existing_ids h
  constructor
  · show (processNew { st with existing_ids := (filterNew st.existing_ids recs).2 }
        (filterNew st.existing_ids recs).1).2 = []
    rw [hf]
    rfl
  · show (processNew { st with existing_ids := (filterNew st.existing_ids recs).2 }
        (filterNew st.existing_ids recs).1).1.existing_ids = _
    rw [hf]
    rfl

/-- One loop iteration over an all-duplicate page: no break, the
failure counter increments and the seen-set is unchanged. -/
lemma loopStep_dup_page (st : LoopState) (recs : List PageRecord)
    (h : ∀ r ∈ recs, r.shotdeck_id ∈ st.scr.existing_ids) :
    (loopStep st (IterEvent.page (PageEvent.content recs) true)).2 = false
    ∧ (loopStep st (IterEvent.page (PageEvent.content recs)
        true)).1.consecutive_failures = st.consecutive_failures + 1
    ∧ (loopStep st (IterEvent.page (PageEvent.content recs)
        true)).1.scr.existing_ids = st.scr.existing_ids := by
  obtain ⟨h1, h2⟩ := scrape_page_all_seen st.scr recs h
  refine ⟨rfl, ?_, ?_⟩
  · simp [loopStep, h1]
  · simp [loopStep, h2]

/-- Consecutive all-duplicate pages drive the failure counter to the
ceiling: with `m` such pages remaining and `consecutive_failures + m = 5`,
the loop exits with the failure exit. -/
lemma runLoop_dup_pages (recs : List PageRecord) (rest : List IterEvent) :
    ∀ (m : ℕ) (st : LoopState),
      (∀ r ∈ recs, r.shotdeck_id ∈ st.scr.existing_ids) →
      st.consecutive_failures + m = 5 →
      (runLoop st
          (List.replicate m (IterEvent.page (PageEvent.content recs) true)
            ++ rest)).2
        = RunExit.tooManyFailures := by
  intro m
  induction m with
  | zero =>
    intro st _ h5
    rw [List.replicate_zero, List.nil_append,
      runLoop_of_ge5 st (by omega) rest]
  | succ m ih =>
    intro st hseen h5
    obtain ⟨hb, hf, he⟩ := loopStep_dup_page st recs hseen
    rw [List.replicate_succ, List.cons_append, runLoop_cons,
      if_neg (by omega), hb, if_neg (by simp)]
    exact ih (loopStep st (IterEvent.page (PageEvent.content recs) true)).1
      (by rw [he]; exact hseen) (by omega)

/-- C10: the loop resets `consecutiveFailures` to zero exactly when the
completed `scrape_page` call returned a non-empty batch — every other
iteration (loop exception, navigation failure, page exception swallowed
inside `scrape_page`, or a page whose records were all already seen)
increments it — and five consecutive all-duplicate or empty pages
terminate the run with the same failure exit as five failing pages. -/
theorem empty_page_counts_as_failure (st : LoopState) (e : IterEvent)
    (recs : List PageRecord) (rest : List IterEvent)
    (hseen : ∀ r ∈ recs, r.shotdeck_id ∈ st.scr.existing_ids)
    (h0 : st.consecutive_failures = 0) :
    ((loopStep st e).1.consecutive_failures = 0
      ↔ ∃ ev hasNext, e = IterEvent.page ev hasNext
          ∧ (scrape_page st.scr ev).2 ≠ [])
    ∧ (runLoop st
        (List.replicate 5 (IterEvent.page (PageEvent.content recs) true)
          ++ rest)).2
      = RunExit.tooManyFailures := by
  constructor
  · cases e with
    | loopRaise => simp [loopStep]
    | navFail => simp [loopStep]
    | page ev hasNext =>
      by_cases hp : (scrape_page st.scr ev).2 = []
      · simp [loopStep, hp]
      · simp [loopStep, hp]
  · exact runLoop_dup_pages recs rest 5 st hseen (by omega)

/-- Witness for C10: a store preloaded with id `a` and five pages that
repeat only id `a`; the run exits with the failure exit, and a raising
page event does not reset the counter. -/
theorem empty_page_counts_as_failure_witness :
    (∀ r ∈ [(⟨"a", true⟩ : PageRecord)],
        r.shotdeck_id ∈ (initLoop [⟨"a", "t"⟩]).scr.existing_ids)
    ∧ (initLoop [⟨"a", "t"⟩]).consecutive_failures = 0
    ∧ (runLoop (initLoop [⟨"a", "t"⟩])
        (List.replicate 5
          (IterEvent.page (PageEvent.content [⟨"a", true⟩]) true) ++ [])).2
      = RunExit.tooManyFailures :=
  ⟨by decide, rfl,
    (empty_page_counts_as_failure (initLoop [⟨"a", "t"⟩]) IterEvent.loopRaise
      [⟨"a", true⟩] [] (by decide) rfl).2⟩

end ShotDeck
